import Mathlib

/-!
Shallow embedding of the guardrail-deployment and model-benchmarking scripts
(`scripts/deploy_guardrails.py`, `scripts/test_bedrock_models.py`) and proofs
about them.  Python floats are modelled by exact rationals (`ℚ`); machine
strings by Lean `String`; the remote service and wall-clock time are made
explicit parameters/state.
-/

/-- Python `str.split()` with no argument: split on runs of whitespace,
dropping empty pieces. -/
def pyWords (s : String) : List String :=
  (s.split Char.isWhitespace).filter (fun w => w ≠ "")

/-- Is `needle` a prefix of `hay` (on character lists)? -/
def charsPrefix : List Char → List Char → Bool
  | [], _ => true
  | _ :: _, [] => false
  | a :: as, b :: bs => a == b && charsPrefix as bs

/-- Is `needle` a contiguous infix of `hay`?  Empty needle matches anywhere,
as in Python. -/
def charsInfix (needle : List Char) : List Char → Bool
  | [] => needle.isEmpty
  | c :: t => charsPrefix needle (c :: t) || charsInfix needle t

/-- Python `needle in hay` for strings: substring containment. -/
def containsSubstr (needle hay : String) : Bool :=
  charsInfix needle.data hay.data

/-- Python `s.count(c)` for a single character. -/
def countChar (s : String) (c : Char) : Nat :=
  (s.data.filter (fun x => x == c)).length

/-- A character is "cased" (approximation of Python's notion, exact on
ASCII). -/
def isCased (c : Char) : Bool := c.isUpper || c.isLower

/-- Python `str.isupper()`: at least one cased character and every cased
character is upper-case. -/
def pyIsUpper (s : String) : Bool :=
  s.data.any isCased && s.data.all (fun c => !(isCased c) || c.isUpper)

/-- Python `str.islower()`: at least one cased character and every cased
character is lower-case. -/
def pyIsLower (s : String) : Bool :=
  s.data.any isCased && s.data.all (fun c => !(isCased c) || c.isLower)

/-- A single-quote character, used by Python `repr` of strings. -/
def squote : String := String.singleton (Char.ofNat 39)

/-- Python `str(list_of_strings)`: bracketed, comma-separated, each element
single-quoted (escaping ignored; none of the strings involved need it). -/
def pyStrList (xs : List String) : String :=
  "[" ++ String.intercalate ", " (xs.map (fun x => squote ++ x ++ squote)) ++ "]"

/-! ## Response scorer (`test_bedrock_models.py`, `evaluate_response_quality`) -/

/-- One benchmark case, as produced by `load_test_prompts`. -/
structure TestCase where
  prompt : String
  category : String
  expected_length : Nat
  expected_tone : String
deriving DecidableEq

/-- The fixed `category_keywords` lookup inside `evaluate_response_quality`. -/
def category_keywords (category : String) : List String :=
  if category == "customer_service" then
    ["help", "assist", "support", "service", "happy"]
  else []

/-- Length component (weight 0.3): `min(actual/expected, expected/actual)`
when the response has at least one word, else 0.  (When
`expected_length = 0` and the response is non-empty the Python code raises
`ZeroDivisionError`; theorems therefore assume `0 < expected_length`, which
holds for every case in `load_test_prompts`.) -/
def lengthComponent (response : String) (expected_length : Nat) : ℚ :=
  let actual_length := (pyWords response).length
  if 0 < actual_length then
    (3/10) * min ((actual_length : ℚ) / (expected_length : ℚ))
                 ((expected_length : ℚ) / (actual_length : ℚ))
  else 0

/-- Keyword-relevance component (weight 0.4): fraction of the category's
keywords occurring (case-insensitively) in the response, clamped to 1;
a fixed `0.4 × 0.5` when the category has no keywords. -/
def keywordComponent (response : String) (category : String) : ℚ :=
  let keywords := category_keywords category
  if keywords.isEmpty then (2/5) * (1/2)
  else
    let keyword_matches :=
      (keywords.filter (fun kw => containsSubstr kw.toLower response.toLower)).length
    (2/5) * min ((keyword_matches : ℚ) / (keywords.length : ℚ)) 1

/-- Well-formedness component (weight 0.3): start at 1, subtract 0.5 if
shorter than 20 characters, 0.3 if no period, 0.2 if all-upper or all-lower;
floored at 0. -/
def qualityComponent (response : String) : ℚ :=
  let q : ℚ := 1
  let q := if response.length < 20 then q - 1/2 else q
  let q := if countChar response '.' == 0 then q - 3/10 else q
  let q := if pyIsUpper response || pyIsLower response then q - 1/5 else q
  (3/10) * max q 0

/-- `BedrockModelTester.evaluate_response_quality`: the three weighted
components summed, clamped above by 1. -/
def evaluate_response_quality (response : String) (tc : TestCase) : ℚ :=
  min (lengthComponent response tc.expected_length
        + keywordComponent response tc.category
        + qualityComponent response) 1

/-- `BedrockModelTester.load_test_prompts`: the fixed benchmark suite. -/
def load_test_prompts : List TestCase :=
  [ { prompt := "I need help with my order status", category := "customer_service",
      expected_length := 100, expected_tone := "helpful" },
    { prompt := "How do I return a product?", category := "customer_service",
      expected_length := 150, expected_tone := "informative" },
    { prompt := "I want to cancel my subscription", category := "customer_service",
      expected_length := 120, expected_tone := "understanding" } ]


/-! ## Guardrail wait loop (`deploy_guardrails.py`, `wait_for_guardrail_ready`)

The loop body either returns/raises or sleeps exactly 10 seconds, so with the
status fetch itself taking no modelled time the polls happen at elapsed times
0, 10, 20, ... while `elapsed < timeout`; the number of polls is therefore
`(timeout + 9) / 10` and the loop is structural recursion on the remaining
polls.  `fetch n` is the outcome of the n-th `get_guardrail` call: either a
response (status and failure reasons) or a raised exception rendered as its
message string. -/

/-- Outcome of one `get_guardrail` call. -/
inductive FetchOutcome
  | ok (status : String) (failureReasons : List String)
  | exn (msg : String)
deriving DecidableEq

/-- How the wait loop ends: normal return (READY) or a raised exception. -/
inductive WaitResult
  | ready
  | raised (msg : String)
deriving DecidableEq

/-- A finished run of the wait loop: its result, how many status fetches it
performed, and the modelled wall-clock seconds elapsed at that point. -/
structure WaitRun where
  result : WaitResult
  fetches : Nat
  elapsed : Nat
deriving DecidableEq

/-- The substring that the `except` clause looks for in a raised exception. -/
def resourceNotFoundNeedle : String := "ResourceNotFoundException"

/-- Message of the exception raised on a FAILED status
(`f"Guardrail deployment failed: {response.get('failureReasons', [])}"`). -/
def failedMsg (reasons : List String) : String :=
  "Guardrail deployment failed: " ++ pyStrList reasons

/-- Message of the exception raised when the loop times out. -/
def timeoutMsg (guardrail_id : String) : String :=
  "Timeout waiting for guardrail " ++ guardrail_id ++ " to be ready"

/-- Body of `wait_for_guardrail_ready`, recursing on the number of polls the
timeout still allows.  Note that the exception raised on a FAILED status is
raised inside the `try`, so the `except` clause applies its
`ResourceNotFoundException` substring test to it as well: a FAILED status
whose rendered message happens to contain that substring is retried like a
not-yet-visible resource instead of escaping the loop. -/
def waitLoop (guardrail_id : String) (fetch : Nat → FetchOutcome) :
    Nat → Nat → Nat → WaitRun
  | 0, n, e => ⟨.raised (timeoutMsg guardrail_id), n, e⟩
  | k + 1, n, e =>
    match fetch n with
    | .ok status reasons =>
      if status == "READY" then ⟨.ready, n + 1, e⟩
      else if status == "FAILED" then
        if containsSubstr resourceNotFoundNeedle (failedMsg reasons) then
          waitLoop guardrail_id fetch k (n + 1) (e + 10)
        else ⟨.raised (failedMsg reasons), n + 1, e⟩
      else waitLoop guardrail_id fetch k (n + 1) (e + 10)
    | .exn msg =>
      if containsSubstr resourceNotFoundNeedle msg then
        waitLoop guardrail_id fetch k (n + 1) (e + 10)
      else ⟨.raised msg, n + 1, e⟩

/-- `BedrockGuardrailsManager.wait_for_guardrail_ready` with its timeout in
seconds (300 in the script). -/
def wait_for_guardrail_ready (guardrail_id : String) (fetch : Nat → FetchOutcome)
    (timeout : Nat) : WaitRun :=
  waitLoop guardrail_id fetch ((timeout + 9) / 10) 0 0

/-! ## Remote guardrail service and `deploy_guardrails` (C1)

The AWS Bedrock control plane is an external collaborator; it is modelled
from the spec's Policy Store Client contract (section 6): `createPolicy`
returns a fresh identifier and registers the name, `updatePolicy` keeps the
identifier, `listPolicies` returns the registered (id, name) pairs, and
`getPolicy` reports status and failure reasons. -/

/-- One guardrail as held by the remote service. -/
structure RemoteGuardrail where
  guardrailId : String
  name : String
  status : String
  failureReasons : List String
deriving DecidableEq

/-- Modelled from the spec: state of the external Policy Store (the remote
service behind `create_guardrail` / `update_guardrail` / `list_guardrails` /
`get_guardrail`, which is not part of this repository). -/
structure ServiceState where
  guardrails : List RemoteGuardrail
  nextId : Nat
deriving DecidableEq

/-- The request dict built by `create_guardrail` / `update_guardrail`:
a full replace, with fixed defaults for omitted fields. -/
structure GuardrailRequest where
  name : String
  description : String
  blockedInputMessaging : String
  blockedOutputsMessaging : String
  filtersConfig : Option (List String)
  topicsConfig : Option (List String)
  piiEntitiesConfig : Option (List String)
deriving DecidableEq

/-- The JSON configuration file consumed by `deploy_guardrails`
(policy payloads kept opaque as lists of strings). -/
structure GuardrailConfig where
  name : String
  description : Option String
  blockedInputMessaging : Option String
  blockedOutputsMessaging : Option String
  contentPolicyFilters : Option (List String)
  topicPolicyTopics : Option (List String)
  piiEntities : Option (List String)
deriving DecidableEq

/-- The request-building shared by `create_guardrail` and `update_guardrail`
(lines 39-62 and 74-96 of `deploy_guardrails.py`). -/
def buildRequest (config : GuardrailConfig) : GuardrailRequest :=
  { name := config.name
    description := config.description.getD ""
    blockedInputMessaging := config.blockedInputMessaging.getD "I cannot process this request."
    blockedOutputsMessaging := config.blockedOutputsMessaging.getD "I cannot provide this information."
    filtersConfig := config.contentPolicyFilters
    topicsConfig := config.topicPolicyTopics
    piiEntitiesConfig := config.piiEntities }

/-- Modelled from the spec: `createPolicy(def) -> id`.  A fresh identifier is
minted and the guardrail registered under the request's name; the remote
build succeeds, so its status is READY by the time it is fetched. -/
def svcCreate (st : ServiceState) (req : GuardrailRequest) : String × ServiceState :=
  let gid := "gr-" ++ toString st.nextId
  (gid,
   { guardrails := st.guardrails ++
       [{ guardrailId := gid, name := req.name, status := "READY", failureReasons := [] }]
     nextId := st.nextId + 1 })

/-- How `updatePolicy` rewrites one stored guardrail: the one with the given
identifier is replaced in place (same identifier) and reaches READY. -/
def updFn (gid : String) (req : GuardrailRequest) (g : RemoteGuardrail) : RemoteGuardrail :=
  if g.guardrailId == gid then
    { g with name := req.name, status := "READY", failureReasons := [] }
  else g

/-- Modelled from the spec: `updatePolicy(id, def) -> id`. -/
def svcUpdate (st : ServiceState) (gid : String) (req : GuardrailRequest) : ServiceState :=
  { st with guardrails := st.guardrails.map (updFn gid req) }

/-- Modelled from the spec: `getPolicy(id) -> {status, failureReasons}`;
an unknown identifier raises `ResourceNotFoundException`. -/
def svcGet (st : ServiceState) (gid : String) : FetchOutcome :=
  match st.guardrails.find? (fun g => g.guardrailId == gid) with
  | some g => .ok g.status g.failureReasons
  | none => .exn ("ResourceNotFoundException: " ++ gid)

/-- `BedrockGuardrailsManager.get_existing_guardrail`: list the guardrails
and return the first whose name matches. -/
def get_existing_guardrail (st : ServiceState) (name : String) : Option RemoteGuardrail :=
  st.guardrails.find? (fun g => g.name == name)

/-- Which branch `deploy_guardrails` took. -/
inductive DeployPath
  | created
  | updated
deriving DecidableEq

/-- Result of a successful `deploy_guardrails` run: the returned identifier,
the branch taken, and the remote state afterwards. -/
structure DeployOutcome where
  guardrailId : String
  path : DeployPath
  state : ServiceState
deriving DecidableEq

/-- `BedrockGuardrailsManager.create_guardrail`: build the request, call the
service, then wait for READY (timeout 300). -/
def create_guardrail (st : ServiceState) (config : GuardrailConfig) :
    Except String (String × ServiceState) :=
  let (gid, st2) := svcCreate st (buildRequest config)
  match (wait_for_guardrail_ready gid (fun _ => svcGet st2 gid) 300).result with
  | .ready => .ok (gid, st2)
  | .raised msg => .error msg

/-- `BedrockGuardrailsManager.update_guardrail`: build the request, call the
service keeping the identifier, then wait for READY (timeout 300). -/
def update_guardrail (st : ServiceState) (gid : String) (config : GuardrailConfig) :
    Except String (String × ServiceState) :=
  let st2 := svcUpdate st gid (buildRequest config)
  match (wait_for_guardrail_ready gid (fun _ => svcGet st2 gid) 300).result with
  | .ready => .ok (gid, st2)
  | .raised msg => .error msg

/-- `BedrockGuardrailsManager.deploy_guardrails`: look the name up; update
when found, create when not.  (`test_guardrail` runs afterwards but only
invokes the runtime model; it does not change the control-plane state or the
returned identifier, so it is not modelled.) -/
def deploy_guardrails (st : ServiceState) (config : GuardrailConfig) :
    Except String DeployOutcome :=
  match get_existing_guardrail st config.name with
  | some g => (update_guardrail st g.guardrailId config).map (fun p => ⟨p.1, .updated, p.2⟩)
  | none => (create_guardrail st config).map (fun p => ⟨p.1, .created, p.2⟩)

/-! ## Benchmark harness (`test_bedrock_models.py`) -/

/-- What one timed invocation of a model on a case produced, as observed by
`test_single_model`: either content with its measured latency (seconds) and
reported token count, or a raised exception's message. -/
inductive InvokeOutcome
  | ok (content : String) (latency : ℚ) (tokens : Int)
  | fail (msg : String)
deriving DecidableEq

/-- One entry of `test_details`: a scored case (with latency, tokens, quality
score and pass flag) or an errored case (error message, `passed: False`,
no quality score). -/
inductive TestDetail
  | scored (prompt_category : String) (latency : ℚ) (tokens_used : Int)
      (quality_score : ℚ) (passed : Bool)
  | errored (prompt_category : String) (error : String) (passed : Bool)
deriving DecidableEq

/-- The per-model result dict built by `test_single_model`
(`success_rate` is absent when there are no prompts, hence `Option`). -/
structure ModelResults where
  model_id : String
  total_tests : Nat
  passed_tests : Nat
  failed_tests : Nat
  average_latency : ℚ
  total_tokens : Int
  test_details : List TestDetail
  success_rate : Option ℚ
deriving DecidableEq

/-- One iteration of `test_single_model`'s loop over the prompts: the
accumulator is the partial result dict together with `total_latency`. -/
def tsmStep (invoke : TestCase → InvokeOutcome) (acc : ModelResults × ℚ)
    (tc : TestCase) : ModelResults × ℚ :=
  let r := acc.1
  match invoke tc with
  | .ok content latency tokens =>
    let quality_score := evaluate_response_quality content tc
    let passed : Bool := decide ((7 : ℚ)/10 ≤ quality_score)
    ({ r with
        passed_tests := if passed then r.passed_tests + 1 else r.passed_tests
        failed_tests := if passed then r.failed_tests else r.failed_tests + 1
        total_tokens := r.total_tokens + tokens
        test_details := r.test_details ++
          [.scored tc.category latency tokens quality_score passed] },
      acc.2 + latency)
  | .fail msg =>
    ({ r with
        failed_tests := r.failed_tests + 1
        test_details := r.test_details ++ [.errored tc.category msg false] },
      acc.2)

/-- `BedrockModelTester.test_single_model`: run every prompt sequentially,
catching each case's exception into an errored detail; then fill in
`average_latency` (over all prompts) and `success_rate`
(`passed_tests / total_tests`). -/
def test_single_model (model_id : String) (prompts : List TestCase)
    (invoke : TestCase → InvokeOutcome) : ModelResults :=
  let init : ModelResults :=
    { model_id := model_id, total_tests := prompts.length, passed_tests := 0,
      failed_tests := 0, average_latency := 0, total_tokens := 0,
      test_details := [], success_rate := none }
  let (r, total_latency) := prompts.foldl (tsmStep invoke) (init, 0)
  if 0 < prompts.length then
    { r with
      average_latency := total_latency / (prompts.length : ℚ)
      success_rate := some ((r.passed_tests : ℚ) / (r.total_tests : ℚ)) }
  else r

/-- One slot of the `results` dict of `test_all_models`: a report, or
`{'error': msg}` when the model's task itself raised. -/
inductive ModelEntry
  | report (r : ModelResults)
  | failedTask (error : String)
deriving DecidableEq

/-- `BedrockModelTester.test_all_models`: one task per model, each writing
its own slot; slots are joined into the `results` dict once all tasks
finish.  Per-case exceptions are already caught inside `test_single_model`,
so each task yields a report.  The dict's iteration order is its insertion
order, i.e. task *completion* order; it is modelled here as the given order
of `models`, and order-sensitivity is analysed by quantifying over
permutations of the result list. -/
def test_all_models (models : List String) (prompts : List TestCase)
    (invoke : String → TestCase → InvokeOutcome) : List (String × ModelEntry) :=
  models.map (fun m => (m, .report (test_single_model m prompts (invoke m))))

/-! ## Model-family dispatch (`invoke_model`) -/

/-- The request body built by `invoke_model`, by model family. -/
inductive RequestBody
  | claudeBody (prompt : String) (max_tokens_to_sample : Nat)
      (temperature top_p : ℚ)
  | titanBody (inputText : String) (maxTokenCount : Nat)
      (temperature topP : ℚ)
deriving DecidableEq

/-- One element of a Titan response's `results` list. -/
structure TitanResult where
  outputText : String
  tokenCount : Int
deriving DecidableEq

/-- The parsed JSON response body (fields defaulted as by `.get`). -/
structure RawResponse where
  completion : String
  results : List TitanResult
deriving DecidableEq

/-- The message of the `UnboundLocalError` Python raises when
`request_body` is used without having been assigned. -/
def unboundMsg : String :=
  "UnboundLocalError: local variable " ++ squote ++ "request_body" ++ squote
    ++ " referenced before assignment"

/-- `BedrockModelTester.invoke_model`: build a family-specific request body
("claude" / "titan" inferred by substring of the lowercased model id),
dispatch it, and parse the family-specific response shape.  A model id
matching neither family leaves `request_body` unassigned, so Python raises
before any request is dispatched — `dispatch` is not applied on that path. -/
def invoke_model (dispatch : RequestBody → RawResponse) (model_id prompt : String) :
    Except String (String × Int) :=
  if containsSubstr "claude" model_id.toLower then
    let resp := dispatch (.claudeBody ("Human: " ++ prompt ++ "\n\nAssistant:") 300 (7/10) (9/10))
    let content := resp.completion.trim
    .ok (content, Rat.floor (((pyWords content).length : ℚ) * (13/10)))
  else if containsSubstr "titan" model_id.toLower then
    let resp := dispatch (.titanBody prompt 300 (7/10) (9/10))
    match resp.results with
    | r :: _ => .ok (r.outputText.trim, r.tokenCount)
    | [] => .ok ("", 0)
  else
    .error unboundMsg

/-! ## Model selection (`main` of `test_bedrock_models.py`) -/

/-- The combined ranking score:
`0.7 * avg_quality + 0.3 * (1 / max(avg_latency, 0.1))`. -/
def combined_score (avg_quality avg_latency : ℚ) : ℚ :=
  (7/10) * avg_quality + (3/10) * (1 / max avg_latency (1/10))

/-- `category_tests` of `main`: the details of the given category that carry
a quality score (errored details carry none), as (quality, latency) pairs. -/
def categoryTests (details : List TestDetail) (category : String) : List (ℚ × ℚ) :=
  details.filterMap (fun d =>
    match d with
    | .scored c lat _ q _ => if c == category then some (q, lat) else none
    | .errored _ _ _ => none)

/-- The combined score `main` computes for one `results` entry in a given
category: none for an errored task or when the entry has no scored case in
the category. -/
def entryScore (category : String) (entry : String × ModelEntry) : Option ℚ :=
  match entry.2 with
  | .failedTask _ => none
  | .report r =>
    let tests := categoryTests r.test_details category
    if tests.isEmpty then none
    else
      some (combined_score ((tests.map Prod.fst).sum / (tests.length : ℚ))
                           ((tests.map Prod.snd).sum / (tests.length : ℚ)))

/-- One iteration of `main`'s best-model loop: strictly greater combined
score replaces the current best. -/
def selectStep (category : String) (acc : Option String × ℚ)
    (entry : String × ModelEntry) : Option String × ℚ :=
  match entryScore category entry with
  | none => acc
  | some s => if acc.2 < s then (some entry.1, s) else acc

/-- `main`'s per-category selection over the `results` entries in iteration
order, starting from `best_model = None`, `best_score = 0`. -/
def selectModelForCategory (results : List (String × ModelEntry))
    (category : String) : Option String :=
  (results.foldl (selectStep category) (none, 0)).1

/-- `main`'s `best_models` dict: the fixed category list is
`['customer_service']`, and the selected model (possibly `None`) is assigned
to every category key unconditionally. -/
def best_models (results : List (String × ModelEntry)) : List (String × Option String) :=
  ["customer_service"].map (fun category => (category, selectModelForCategory results category))

/-! ## Theorems -/

lemma lengthComponent_nonneg (response : String) (e : Nat) :
    0 ≤ lengthComponent response e := by
  simp only [lengthComponent]
  split_ifs with h
  · have h1 : (0:ℚ) ≤ (((pyWords response).length : ℚ) / (e : ℚ)) := by positivity
    have h2 : (0:ℚ) ≤ ((e : ℚ) / ((pyWords response).length : ℚ)) := by positivity
    exact mul_nonneg (by norm_num) (le_min h1 h2)
  · exact le_refl 0

lemma keywordComponent_nonneg (response category : String) :
    0 ≤ keywordComponent response category := by
  simp only [keywordComponent]
  split_ifs with h
  · norm_num
  · refine mul_nonneg (by norm_num) (le_min (by positivity) (by norm_num))

lemma qualityComponent_nonneg (response : String) : 0 ≤ qualityComponent response := by
  simp only [qualityComponent]
  split_ifs <;> exact mul_nonneg (by norm_num) (le_max_right _ _)

/-- C4: for every response text (the empty string included) and every
benchmark case (all of which have a positive expected length; Python would
raise `ZeroDivisionError` on a zero one), `evaluate_response_quality`
returns a value in the closed interval [0, 1]. -/
theorem c4_score_in_unit_interval (response : String) (tc : TestCase)
    (h : 0 < tc.expected_length) :
    0 ≤ evaluate_response_quality response tc ∧ evaluate_response_quality response tc ≤ 1 := by
  unfold evaluate_response_quality
  refine ⟨le_min ?_ (by norm_num), min_le_right _ _⟩
  exact add_nonneg (add_nonneg (lengthComponent_nonneg _ _) (keywordComponent_nonneg _ _))
    (qualityComponent_nonneg _)

theorem c4_score_in_unit_interval_witness :
    0 < (100 : Nat)
    ∧ (0 ≤ evaluate_response_quality "" ⟨"I need help with my order status", "customer_service", 100, "helpful"⟩
        ∧ evaluate_response_quality "" ⟨"I need help with my order status", "customer_service", 100, "helpful"⟩ ≤ 1) :=
  ⟨by decide,
   c4_score_in_unit_interval "" ⟨"I need help with my order status", "customer_service", 100, "helpful"⟩ (by decide)⟩

/-- C5 (counterexample): for the response
"I am happy to help with your support request." in category
`customer_service` the keyword-relevance component is 0.24 = 6/25, not the
claimed 0.4 = 2/5; not all five keywords match. -/
theorem c5_counterexample :
    keywordComponent "I am happy to help with your support request." "customer_service" = 6/25
    ∧ (6/25 : ℚ) ≠ 2/5 := by
  constructor
  · with_unfolding_all rfl
  · norm_num

/-- C5 (amended): exactly three of the five configured keywords — "help",
"support" and "happy" — occur as case-insensitive substrings of
"I am happy to help with your support request.", so the keyword-relevance
component is 0.4 × (3/5) = 0.24. -/
theorem c5_keyword_component_value :
    (category_keywords "customer_service").filter
        (fun kw => containsSubstr kw.toLower "I am happy to help with your support request.".toLower)
      = ["help", "support", "happy"]
    ∧ keywordComponent "I am happy to help with your support request." "customer_service"
        = (2/5) * (3/5) := by
  constructor
  · with_unfolding_all rfl
  · with_unfolding_all rfl

lemma waitLoop_nonterminal (gid : String) (fetch : Nat → FetchOutcome)
    (hf : ∀ n, ∃ s r, fetch n = .ok s r ∧ s ≠ "READY" ∧ s ≠ "FAILED") :
    ∀ k n e, waitLoop gid fetch k n e = ⟨.raised (timeoutMsg gid), n + k, e + 10 * k⟩ := by
  intro k
  induction k with
  | zero => intro n e; simp [waitLoop]
  | succ k ih =>
    intro n e
    obtain ⟨s, r, hfe, hs1, hs2⟩ := hf n
    rw [waitLoop, hfe]
    simp only [beq_iff_eq, hs1, hs2, if_false]
    rw [ih (n + 1) (e + 10)]
    simp only [WaitRun.mk.injEq, and_true, true_and]
    omega

/-- C3: when the status fetch never returns READY nor FAILED, the wait loop
fails with the timeout error, and the modelled wall-clock time elapsed at
that failure is at least the configured timeout. -/
theorem c3_timeout_at_or_after_deadline (gid : String) (fetch : Nat → FetchOutcome)
    (timeout : Nat)
    (hf : ∀ n, ∃ s r, fetch n = .ok s r ∧ s ≠ "READY" ∧ s ≠ "FAILED") :
    (wait_for_guardrail_ready gid fetch timeout).result = .raised (timeoutMsg gid)
    ∧ timeout ≤ (wait_for_guardrail_ready gid fetch timeout).elapsed := by
  unfold wait_for_guardrail_ready
  rw [waitLoop_nonterminal gid fetch hf]
  exact ⟨rfl, by show timeout ≤ 0 + 10 * ((timeout + 9) / 10); omega⟩

theorem c3_timeout_at_or_after_deadline_witness :
    (wait_for_guardrail_ready "gr-w3" (fun _ => .ok "CREATING" []) 300).result
        = .raised (timeoutMsg "gr-w3")
    ∧ 300 ≤ (wait_for_guardrail_ready "gr-w3" (fun _ => .ok "CREATING" []) 300).elapsed :=
  c3_timeout_at_or_after_deadline "gr-w3" (fun _ => .ok "CREATING" []) 300
    (fun _ => ⟨"CREATING", [], rfl, by decide, by decide⟩)

/-- C2 (counterexample): a FAILED status whose failure reasons render to a
message containing "ResourceNotFoundException" is caught by the loop's own
`except` clause and retried: the run performs 30 further status fetches and
ends in the timeout error, not in an error carrying the failure reasons. -/
theorem c2_counterexample :
    wait_for_guardrail_ready "gr-c2" (fun _ => .ok "FAILED" [resourceNotFoundNeedle]) 300
      = ⟨.raised (timeoutMsg "gr-c2"), 30, 300⟩
    ∧ timeoutMsg "gr-c2" ≠ failedMsg [resourceNotFoundNeedle] := by
  constructor
  · with_unfolding_all rfl
  · decide

/-- C2 (amended): when a status fetch returns FAILED and the rendered
failure message does not contain the substring "ResourceNotFoundException",
the wait loop raises that message at once: exactly one status fetch is
performed and no wall-clock time elapses afterwards. -/
theorem c2_failed_status_raises_immediately (gid : String) (fetch : Nat → FetchOutcome)
    (reasons : List String) (timeout : Nat)
    (hfetch : fetch 0 = .ok "FAILED" reasons)
    (hneedle : containsSubstr resourceNotFoundNeedle (failedMsg reasons) = false)
    (ht : 0 < timeout) :
    wait_for_guardrail_ready gid fetch timeout = ⟨.raised (failedMsg reasons), 1, 0⟩ := by
  unfold wait_for_guardrail_ready
  obtain ⟨k, hk⟩ : ∃ k, (timeout + 9) / 10 = k + 1 := ⟨(timeout + 9) / 10 - 1, by omega⟩
  rw [hk, waitLoop, hfetch]
  simp [hneedle]

theorem c2_failed_status_raises_immediately_witness :
    wait_for_guardrail_ready "gr-w2" (fun _ => .ok "FAILED" ["InvalidFilterConfiguration"]) 300
      = ⟨.raised (failedMsg ["InvalidFilterConfiguration"]), 1, 0⟩ :=
  c2_failed_status_raises_immediately "gr-w2" (fun _ => .ok "FAILED" ["InvalidFilterConfiguration"])
    ["InvalidFilterConfiguration"] 300 rfl (by decide) (by decide)

lemma find_map_updFn (gid : String) (req : GuardrailRequest) :
    ∀ l : List RemoteGuardrail, (∃ g ∈ l, g.guardrailId = gid) →
      (l.map (updFn gid req)).find? (fun g => g.guardrailId == gid)
        = some ⟨gid, req.name, "READY", []⟩ := by
  intro l
  induction l with
  | nil => rintro ⟨g, hg, _⟩; cases hg
  | cons g t ih =>
    rintro ⟨g0, hg0, hid⟩
    by_cases hg : g.guardrailId = gid
    · rw [List.map_cons,
        show updFn gid req g = ⟨gid, req.name, "READY", []⟩ from by simp [updFn, hg]]
      exact List.find?_cons_of_pos _ (by simp)
    · rw [List.map_cons, show updFn gid req g = g from by simp [updFn, hg],
        List.find?_cons_of_neg _ (by simp [hg])]
      apply ih
      rcases List.mem_cons.mp hg0 with h1 | h1
      · exact absurd (h1 ▸ hid) hg
      · exact ⟨g0, h1, hid⟩

lemma find_name_map_updFn (nm : String) (req : GuardrailRequest) (hreq : req.name = nm) :
    ∀ (l : List RemoteGuardrail) (g : RemoteGuardrail),
      l.find? (fun x => x.name == nm) = some g →
      ∃ g2, (l.map (updFn g.guardrailId req)).find? (fun x => x.name == nm) = some g2
        ∧ g2.guardrailId = g.guardrailId := by
  intro l
  induction l with
  | nil => intro g h; simp [List.find?] at h
  | cons x t ih =>
    intro g h
    by_cases hid : x.guardrailId = g.guardrailId
    · refine ⟨⟨g.guardrailId, req.name, "READY", []⟩, ?_, rfl⟩
      rw [List.map_cons,
        show updFn g.guardrailId req x = ⟨g.guardrailId, req.name, "READY", []⟩ from by
          simp [updFn, hid]]
      exact List.find?_cons_of_pos _ (by simp [hreq])
    · by_cases hnm : x.name = nm
      · rw [List.find?_cons_of_pos _ (by simp [hnm])] at h
        injection h with h
        exact absurd (h ▸ rfl) hid
      · rw [List.find?_cons_of_neg _ (by simp [hnm])] at h
        obtain ⟨g2, hg2, hgid⟩ := ih g h
        refine ⟨g2, ?_, hgid⟩
        rw [List.map_cons, show updFn g.guardrailId req x = x from by simp [updFn, hid],
          List.find?_cons_of_neg _ (by simp [hnm])]
        exact hg2

lemma find_append_of_none {α : Type} (p : α → Bool) (l1 l2 : List α)
    (h : l1.find? p = none) : (l1 ++ l2).find? p = l2.find? p := by
  induction l1 with
  | nil => rfl
  | cons x t ih =>
    rw [List.find?_eq_none] at h
    have hx : ¬ p x = true := h x (List.mem_cons_self x t)
    rw [List.cons_append, List.find?_cons_of_neg _ hx]
    exact ih (List.find?_eq_none.mpr fun y hy => h y (List.mem_cons_of_mem x hy))

lemma wait_ready_first_poll (gid : String) (fetch : Nat → FetchOutcome) (reasons : List String)
    (timeout : Nat) (hfetch : fetch 0 = .ok "READY" reasons) (ht : 0 < timeout) :
    (wait_for_guardrail_ready gid fetch timeout).result = .ready := by
  unfold wait_for_guardrail_ready
  obtain ⟨k, hk⟩ : ∃ k, (timeout + 9) / 10 = k + 1 := ⟨(timeout + 9) / 10 - 1, by omega⟩
  rw [hk, waitLoop, hfetch]
  simp

lemma update_guardrail_ok (st : ServiceState) (gid : String) (config : GuardrailConfig)
    (h : ∃ g ∈ st.guardrails, g.guardrailId = gid) :
    update_guardrail st gid config = .ok (gid, svcUpdate st gid (buildRequest config)) := by
  have hget : svcGet (svcUpdate st gid (buildRequest config)) gid = .ok "READY" [] := by
    simp only [svcGet, svcUpdate]
    rw [find_map_updFn gid (buildRequest config) st.guardrails h]
  have hready : (wait_for_guardrail_ready gid
      (fun _ => svcGet (svcUpdate st gid (buildRequest config)) gid) 300).result = .ready :=
    wait_ready_first_poll _ _ _ 300 (by rw [hget]) (by decide)
  simp only [update_guardrail]
  rw [hready]

lemma deploy_ok_cases (st : ServiceState) (config : GuardrailConfig) (r : DeployOutcome)
    (h : deploy_guardrails st config = .ok r) :
    (∃ g, get_existing_guardrail st config.name = some g
       ∧ r = ⟨g.guardrailId, .updated, svcUpdate st g.guardrailId (buildRequest config)⟩)
    ∨ (get_existing_guardrail st config.name = none
       ∧ r = ⟨"gr-" ++ toString st.nextId, .created,
              { guardrails := st.guardrails ++
                  [{ guardrailId := "gr-" ++ toString st.nextId, name := config.name,
                     status := "READY", failureReasons := [] }]
                nextId := st.nextId + 1 }⟩) := by
  unfold deploy_guardrails at h
  split at h
  · rename_i g hfind
    rw [update_guardrail_ok st g.guardrailId config
        ⟨g, List.mem_of_find?_eq_some hfind, rfl⟩] at h
    simp only [Except.map] at h
    injection h with h
    exact Or.inl ⟨g, hfind, h.symm⟩
  · rename_i hfind
    simp only [create_guardrail, svcCreate] at h
    split at h
    · simp only [Except.map] at h
      injection h with h
      exact Or.inr ⟨hfind, h.symm⟩
    · simp only [Except.map] at h
      exact Except.noConfusion h

lemma deploy_registers_name (st : ServiceState) (config : GuardrailConfig) (r : DeployOutcome)
    (h : deploy_guardrails st config = .ok r) :
    ∃ g2, get_existing_guardrail r.state config.name = some g2
      ∧ g2.guardrailId = r.guardrailId := by
  rcases deploy_ok_cases st config r h with ⟨g, hfind, hr⟩ | ⟨hfind, hr⟩
  · subst hr
    simp only [get_existing_guardrail] at hfind
    obtain ⟨g2, hg2, hid⟩ :=
      find_name_map_updFn config.name (buildRequest config) rfl st.guardrails g hfind
    refine ⟨g2, ?_, hid⟩
    simp only [get_existing_guardrail, svcUpdate]
    exact hg2
  · subst hr
    refine ⟨⟨"gr-" ++ toString st.nextId, config.name, "READY", []⟩, ?_, rfl⟩
    simp only [get_existing_guardrail] at hfind ⊢
    rw [find_append_of_none _ _ _ hfind]
    exact List.find?_cons_of_pos _ (by simp)

/-- C1: a second `deploy_guardrails` run with the same configuration returns
the same guardrail identifier as the first, takes the update path (the
name-based lookup finds the resource created or updated by the first run),
and creates no duplicate: the number of remote guardrails is unchanged by
the second run. -/
theorem c1_reconcile_idempotent (st0 : ServiceState) (config : GuardrailConfig)
    (r1 r2 : DeployOutcome)
    (h1 : deploy_guardrails st0 config = .ok r1)
    (h2 : deploy_guardrails r1.state config = .ok r2) :
    r2.guardrailId = r1.guardrailId ∧ r2.path = .updated
    ∧ r2.state.guardrails.length = r1.state.guardrails.length := by
  obtain ⟨g2, hg2, hgid⟩ := deploy_registers_name st0 config r1 h1
  have hrun2 : deploy_guardrails r1.state config
      = .ok ⟨g2.guardrailId, .updated,
             svcUpdate r1.state g2.guardrailId (buildRequest config)⟩ := by
    have hmem : g2 ∈ r1.state.guardrails :=
      List.mem_of_find?_eq_some (by simpa [get_existing_guardrail] using hg2)
    unfold deploy_guardrails
    rw [hg2]
    show Except.map (fun p => (⟨p.1, .updated, p.2⟩ : DeployOutcome))
        (update_guardrail r1.state g2.guardrailId config) = _
    rw [update_guardrail_ok r1.state g2.guardrailId config ⟨g2, hmem, rfl⟩]
    rfl
  rw [hrun2] at h2
  injection h2 with h2
  subst h2
  exact ⟨hgid, rfl, by simp [svcUpdate]⟩

/-- Configuration used by the C1 witness. -/
def c1ConfigW : GuardrailConfig :=
  { name := "content-safety-guardrail", description := none, blockedInputMessaging := none,
    blockedOutputsMessaging := none, contentPolicyFilters := none, topicPolicyTopics := none,
    piiEntities := none }

/-- Initial remote state used by the C1 witness: no guardrails. -/
def c1StateW : ServiceState := { guardrails := [], nextId := 0 }

/-- Outcome of the first C1 witness run (create path). -/
def c1Run1W : DeployOutcome :=
  { guardrailId := "gr-0", path := .created,
    state := { guardrails := [{ guardrailId := "gr-0", name := "content-safety-guardrail",
                                status := "READY", failureReasons := [] }], nextId := 1 } }

/-- Outcome of the second C1 witness run (update path, same identifier). -/
def c1Run2W : DeployOutcome :=
  { guardrailId := "gr-0", path := .updated,
    state := { guardrails := [{ guardrailId := "gr-0", name := "content-safety-guardrail",
                                status := "READY", failureReasons := [] }], nextId := 1 } }

theorem c1_reconcile_idempotent_witness :
    c1Run2W.guardrailId = c1Run1W.guardrailId ∧ c1Run2W.path = .updated
    ∧ c1Run2W.state.guardrails.length = c1Run1W.state.guardrails.length :=
  c1_reconcile_idempotent c1StateW c1ConfigW c1Run1W c1Run2W
    (by with_unfolding_all rfl) (by with_unfolding_all rfl)

lemma tsmStep_total_tests (invoke : TestCase → InvokeOutcome) (acc : ModelResults × ℚ)
    (tc : TestCase) : (tsmStep invoke acc tc).1.total_tests = acc.1.total_tests := by
  cases hinv : invoke tc <;> simp [tsmStep, hinv]

lemma tsmStep_counts (invoke : TestCase → InvokeOutcome) (acc : ModelResults × ℚ)
    (tc : TestCase) :
    (tsmStep invoke acc tc).1.passed_tests + (tsmStep invoke acc tc).1.failed_tests
      = acc.1.passed_tests + acc.1.failed_tests + 1 := by
  cases hinv : invoke tc
  · simp only [tsmStep, hinv]
    split_ifs <;> simp_arith
  · simp [tsmStep, hinv]
    omega

lemma tsm_foldl_total_tests (invoke : TestCase → InvokeOutcome) :
    ∀ (l : List TestCase) (acc : ModelResults × ℚ),
      (l.foldl (tsmStep invoke) acc).1.total_tests = acc.1.total_tests
  | [], _ => rfl
  | tc :: t, acc => by
      rw [List.foldl_cons, tsm_foldl_total_tests invoke t _, tsmStep_total_tests]

lemma tsm_foldl_counts (invoke : TestCase → InvokeOutcome) :
    ∀ (l : List TestCase) (acc : ModelResults × ℚ),
      (l.foldl (tsmStep invoke) acc).1.passed_tests
          + (l.foldl (tsmStep invoke) acc).1.failed_tests
        = acc.1.passed_tests + acc.1.failed_tests + l.length
  | [], acc => by simp
  | tc :: t, acc => by
      rw [List.foldl_cons, tsm_foldl_counts invoke t _, tsmStep_counts]
      simp [List.length_cons]
      omega

lemma tsm_foldl_passed_of_fail (invoke : TestCase → InvokeOutcome) :
    ∀ (l : List TestCase) (acc : ModelResults × ℚ),
      (∀ tc ∈ l, ∃ msg, invoke tc = .fail msg) →
      (l.foldl (tsmStep invoke) acc).1.passed_tests = acc.1.passed_tests
  | [], _, _ => rfl
  | tc :: t, acc, h => by
      obtain ⟨msg, hmsg⟩ := h tc (List.mem_cons_self tc t)
      rw [List.foldl_cons,
        tsm_foldl_passed_of_fail invoke t _ (fun x hx => h x (List.mem_cons_of_mem tc hx))]
      simp [tsmStep, hmsg]

lemma test_single_model_total (model_id : String) (prompts : List TestCase)
    (invoke : TestCase → InvokeOutcome) :
    (test_single_model model_id prompts invoke).total_tests = prompts.length := by
  simp only [test_single_model]
  split_ifs with h <;> simp [tsm_foldl_total_tests]

lemma test_single_model_counts (model_id : String) (prompts : List TestCase)
    (invoke : TestCase → InvokeOutcome) :
    (test_single_model model_id prompts invoke).passed_tests
      + (test_single_model model_id prompts invoke).failed_tests = prompts.length := by
  simp only [test_single_model]
  split_ifs with h <;> simp [tsm_foldl_counts]

lemma test_single_model_success_rate (model_id : String) (prompts : List TestCase)
    (invoke : TestCase → InvokeOutcome) (h : prompts ≠ []) :
    (test_single_model model_id prompts invoke).success_rate
      = some (((test_single_model model_id prompts invoke).passed_tests : ℚ)
              / ((test_single_model model_id prompts invoke).total_tests : ℚ)) := by
  have hlen : 0 < prompts.length := List.length_pos.mpr h
  simp [test_single_model, hlen]

lemma test_single_model_passed_zero (model_id : String) (prompts : List TestCase)
    (invoke : TestCase → InvokeOutcome)
    (h : ∀ tc ∈ prompts, ∃ msg, invoke tc = .fail msg) :
    (test_single_model model_id prompts invoke).passed_tests = 0 := by
  simp only [test_single_model]
  split_ifs with h2 <;> simp [tsm_foldl_passed_of_fail invoke prompts _ h]

/-- C8 (amended): `success_rate` is `passed_tests / total_tests` where
`total_tests` counts every case, errored ones included: an errored case
counts as failed and stays in the denominator (it is only excluded from
quality-score aggregation, which draws solely on scored details). -/
theorem c8_success_rate_over_all_cases (model_id : String) (prompts : List TestCase)
    (invoke : TestCase → InvokeOutcome) (h : prompts ≠ []) :
    (test_single_model model_id prompts invoke).total_tests = prompts.length
    ∧ (test_single_model model_id prompts invoke).passed_tests
        + (test_single_model model_id prompts invoke).failed_tests = prompts.length
    ∧ (test_single_model model_id prompts invoke).success_rate
        = some (((test_single_model model_id prompts invoke).passed_tests : ℚ)
                / ((test_single_model model_id prompts invoke).total_tests : ℚ)) :=
  ⟨test_single_model_total model_id prompts invoke,
   test_single_model_counts model_id prompts invoke,
   test_single_model_success_rate model_id prompts invoke h⟩

theorem c8_success_rate_over_all_cases_witness :
    (test_single_model "anthropic.claude-v2" load_test_prompts (fun _ => .fail "boom")).total_tests
        = load_test_prompts.length
    ∧ (test_single_model "anthropic.claude-v2" load_test_prompts (fun _ => .fail "boom")).passed_tests
        + (test_single_model "anthropic.claude-v2" load_test_prompts (fun _ => .fail "boom")).failed_tests
        = load_test_prompts.length
    ∧ (test_single_model "anthropic.claude-v2" load_test_prompts (fun _ => .fail "boom")).success_rate
        = some (((test_single_model "anthropic.claude-v2" load_test_prompts (fun _ => .fail "boom")).passed_tests : ℚ)
                / ((test_single_model "anthropic.claude-v2" load_test_prompts (fun _ => .fail "boom")).total_tests : ℚ)) :=
  c8_success_rate_over_all_cases "anthropic.claude-v2" load_test_prompts (fun _ => .fail "boom")
    (by decide)

/-- Number of test details that carry a quality score. -/
def scoredCaseCount (details : List TestDetail) : Nat :=
  (details.filter (fun d =>
    match d with
    | .scored _ _ _ _ _ => true
    | .errored _ _ _ => false)).length

/-- Invoker for the C8 counterexample: the first benchmark case errors, the
other two receive a response scoring at least 0.7. -/
def invokeC8 : TestCase → InvokeOutcome := fun tc =>
  if tc.prompt == "I need help with my order status" then
    .fail "ThrottlingException: Rate exceeded"
  else .ok "We are happy to help, assist, support and service you." 1 10

set_option maxRecDepth 4000 in
/-- C8 (counterexample): one errored case and two passing cases give
`success_rate = 2/3` — the errored case is counted in the denominator —
whereas a rate computed only over the 2 cases with a defined quality score
would be 2/2 = 1. -/
theorem c8_counterexample :
    (test_single_model "anthropic.claude-v2" load_test_prompts invokeC8).success_rate = some (2/3)
    ∧ (test_single_model "anthropic.claude-v2" load_test_prompts invokeC8).passed_tests = 2
    ∧ scoredCaseCount
        (test_single_model "anthropic.claude-v2" load_test_prompts invokeC8).test_details = 2
    ∧ ((2 : ℚ)/3 ≠ (2 : ℚ)/2) := by
  refine ⟨?_, ?_, ?_, by norm_num⟩
  · with_unfolding_all rfl
  · with_unfolding_all rfl
  · with_unfolding_all rfl

lemma lookup_map_fn (f : String → ModelEntry) :
    ∀ (models : List String) (m : String), m ∈ models →
      (models.map (fun x => (x, f x))).lookup m = some (f m)
  | [], m, hm => absurd hm (List.not_mem_nil m)
  | x :: t, m, hm => by
      by_cases hx : m = x
      · subst hx
        simp [List.lookup]
      · have hmt : m ∈ t := by
          rcases List.mem_cons.mp hm with h1 | h1
          · exact absurd h1 hx
          · exact h1
        have hbeq : (m == x) = false := beq_eq_false_iff_ne.mpr hx
        rw [List.map_cons]
        simp only [List.lookup, hbeq]
        exact lookup_map_fn f t m hmt

/-- C9: when one model's invocations all raise, every other model's slot in
the joined results is exactly what it would be under any invoker agreeing
with this one away from the failing model (its data is unaffected), and the
failing model still gets a complete report with 0 passed cases and
`prompts.length` failed cases. -/
theorem c9_failing_model_isolated (models : List String) (prompts : List TestCase)
    (invoke invoke2 : String → TestCase → InvokeOutcome) (bad : String)
    (hbad : ∀ tc, ∃ msg, invoke bad tc = .fail msg)
    (hagree : ∀ m, m ≠ bad → invoke2 m = invoke m) :
    (∀ m ∈ models, m ≠ bad →
      (test_all_models models prompts invoke2).lookup m
        = (test_all_models models prompts invoke).lookup m)
    ∧ (bad ∈ models →
      (test_all_models models prompts invoke).lookup bad
        = some (.report (test_single_model bad prompts (invoke bad)))
      ∧ (test_single_model bad prompts (invoke bad)).passed_tests = 0
      ∧ (test_single_model bad prompts (invoke bad)).failed_tests = prompts.length) := by
  constructor
  · intro m hm hne
    unfold test_all_models
    rw [lookup_map_fn _ models m hm, lookup_map_fn _ models m hm, hagree m hne]
  · intro hb
    have hp : (test_single_model bad prompts (invoke bad)).passed_tests = 0 :=
      test_single_model_passed_zero bad prompts (invoke bad) (fun tc _ => hbad tc)
    have hc := test_single_model_counts bad prompts (invoke bad)
    refine ⟨?_, hp, by omega⟩
    unfold test_all_models
    exact lookup_map_fn _ models bad hb

/-- Models used by the C9 witness. -/
def modelsC9 : List String :=
  ["anthropic.claude-v2", "amazon.titan-text-express-v1", "meta.llama2-70b"]

/-- Invoker used by the C9 witness: one model raises on every call. -/
def invokeC9 : String → TestCase → InvokeOutcome := fun m _ =>
  if m == "meta.llama2-70b" then .fail "AccessDeniedException: not authorized"
  else .ok "We are happy to help, assist, support and service you." 1 10

theorem c9_failing_model_isolated_witness :
    (test_all_models modelsC9 load_test_prompts invokeC9).lookup "meta.llama2-70b"
      = some (.report (test_single_model "meta.llama2-70b" load_test_prompts
          (invokeC9 "meta.llama2-70b")))
    ∧ (test_single_model "meta.llama2-70b" load_test_prompts
        (invokeC9 "meta.llama2-70b")).passed_tests = 0
    ∧ (test_single_model "meta.llama2-70b" load_test_prompts
        (invokeC9 "meta.llama2-70b")).failed_tests = load_test_prompts.length :=
  (c9_failing_model_isolated modelsC9 load_test_prompts invokeC9 invokeC9 "meta.llama2-70b"
      (fun _ => ⟨"AccessDeniedException: not authorized", rfl⟩)
      (fun _ _ => rfl)).2 (by decide)

/-- C10: a model id whose lowercase form contains neither "claude" nor
"titan" makes `invoke_model` raise before any request is dispatched — the
result is the `UnboundLocalError` for `request_body` and is independent of
the dispatch function — and under `test_single_model` every benchmark case
for such a model is recorded as failed: 0 passed, all failed. -/
theorem c10_unknown_model_family (model_id : String)
    (h1 : containsSubstr "claude" model_id.toLower = false)
    (h2 : containsSubstr "titan" model_id.toLower = false)
    (prompts : List TestCase) (lat : TestCase → ℚ)
    (dispatch dispatch2 : RequestBody → RawResponse) (prompt : String) :
    invoke_model dispatch model_id prompt = .error unboundMsg
    ∧ invoke_model dispatch model_id prompt = invoke_model dispatch2 model_id prompt
    ∧ (test_single_model model_id prompts (fun tc =>
        match invoke_model dispatch model_id tc.prompt with
        | .ok (c, tk) => InvokeOutcome.ok c (lat tc) tk
        | .error e => InvokeOutcome.fail e)).passed_tests = 0
    ∧ (test_single_model model_id prompts (fun tc =>
        match invoke_model dispatch model_id tc.prompt with
        | .ok (c, tk) => InvokeOutcome.ok c (lat tc) tk
        | .error e => InvokeOutcome.fail e)).failed_tests = prompts.length := by
  have herr : ∀ (d : RequestBody → RawResponse) (p : String),
      invoke_model d model_id p = .error unboundMsg := by
    intro d p
    simp [invoke_model, h1, h2]
  have hallfail : ∀ tc ∈ prompts, ∃ msg,
      (fun tc =>
        match invoke_model dispatch model_id tc.prompt with
        | .ok (c, tk) => InvokeOutcome.ok c (lat tc) tk
        | .error e => InvokeOutcome.fail e) tc = InvokeOutcome.fail msg := by
    intro tc _
    exact ⟨unboundMsg, by simp [herr]⟩
  have hp := test_single_model_passed_zero model_id prompts _ hallfail
  have hc := test_single_model_counts model_id prompts (fun tc =>
    match invoke_model dispatch model_id tc.prompt with
    | .ok (c, tk) => InvokeOutcome.ok c (lat tc) tk
    | .error e => InvokeOutcome.fail e)
  exact ⟨herr dispatch prompt, by rw [herr, herr], hp, by omega⟩

theorem c10_unknown_model_family_witness :
    invoke_model (fun _ => ⟨"", []⟩) "meta.llama2-70b-chat-v1" "hi" = .error unboundMsg
    ∧ invoke_model (fun _ => ⟨"", []⟩) "meta.llama2-70b-chat-v1" "hi"
        = invoke_model (fun _ => ⟨"ok", []⟩) "meta.llama2-70b-chat-v1" "hi"
    ∧ (test_single_model "meta.llama2-70b-chat-v1" load_test_prompts (fun tc =>
        match invoke_model (fun _ => ⟨"", []⟩) "meta.llama2-70b-chat-v1" tc.prompt with
        | .ok (c, tk) => InvokeOutcome.ok c 0 tk
        | .error e => InvokeOutcome.fail e)).passed_tests = 0
    ∧ (test_single_model "meta.llama2-70b-chat-v1" load_test_prompts (fun tc =>
        match invoke_model (fun _ => ⟨"", []⟩) "meta.llama2-70b-chat-v1" tc.prompt with
        | .ok (c, tk) => InvokeOutcome.ok c 0 tk
        | .error e => InvokeOutcome.fail e)).failed_tests = load_test_prompts.length :=
  c10_unknown_model_family "meta.llama2-70b-chat-v1" (by with_unfolding_all rfl)
    (by with_unfolding_all rfl)
    load_test_prompts (fun _ => 0) (fun _ => ⟨"", []⟩) (fun _ => ⟨"ok", []⟩) "hi"

/-- Report used on both sides of the C6 tie counterexample (identical data
under two different model identifiers, hence equal combined scores). -/
def reportTieA : ModelResults :=
  { model_id := "model-a", total_tests := 1, passed_tests := 1, failed_tests := 0,
    average_latency := 1, total_tokens := 10,
    test_details := [.scored "customer_service" 1 10 (1/2) true], success_rate := some 1 }

/-- The same data under the identifier that sorts second. -/
def reportTieB : ModelResults := { reportTieA with model_id := "model-b" }

/-- C6 (counterexample): two models with identical category data (equal
combined scores) are ranked in results-iteration order, i.e. task-completion
order: flipping the completion order flips the selected model, so selection
is not independent of completion order on a tie, and the tie is not broken
by sorted model identifier (which would pick "model-a" both times). -/
theorem c6_counterexample :
    selectModelForCategory
        [("model-a", .report reportTieA), ("model-b", .report reportTieB)] "customer_service"
      = some "model-a"
    ∧ selectModelForCategory
        [("model-b", .report reportTieB), ("model-a", .report reportTieA)] "customer_service"
      = some "model-b" := by
  constructor <;> with_unfolding_all rfl

lemma foldl_selectStep_unique_max (category m : String) (s : ℚ) :
    ∀ (l : List (String × ModelEntry)) (acc : Option String × ℚ),
      (∀ e ∈ l, ∀ t, entryScore category e = some t → t < s ∨ (e.1 = m ∧ t = s)) →
      ((∃ e ∈ l, e.1 = m ∧ entryScore category e = some s) ∧ acc.2 < s
        ∨ acc = (some m, s)) →
      l.foldl (selectStep category) acc = (some m, s) := by
  intro l
  induction l with
  | nil =>
    intro acc _ hstart
    rcases hstart with ⟨⟨e, he, _⟩, _⟩ | heq
    · exact absurd he (List.not_mem_nil e)
    · simpa using heq
  | cons e t ih =>
    intro acc hmax hstart
    rw [List.foldl_cons]
    have hmaxt : ∀ x ∈ t, ∀ u, entryScore category x = some u → u < s ∨ (x.1 = m ∧ u = s) :=
      fun x hx => hmax x (List.mem_cons_of_mem e hx)
    cases hs : entryScore category e with
    | none =>
      rw [show selectStep category acc e = acc from by simp [selectStep, hs]]
      apply ih _ hmaxt
      rcases hstart with ⟨⟨w, hw, hw1, hw2⟩, hlt⟩ | heq
      · left
        refine ⟨⟨w, ?_, hw1, hw2⟩, hlt⟩
        rcases List.mem_cons.mp hw with hwe | hwe
        · subst hwe; rw [hs] at hw2; exact absurd hw2 (by simp)
        · exact hwe
      · right; exact heq
    | some v =>
      have hv := hmax e (List.mem_cons_self e t) v hs
      rcases hstart with ⟨⟨w, hw, hw1, hw2⟩, hlt⟩ | heq
      · rcases hv with hvlt | ⟨hem, hvs⟩
        · have hwt : w ∈ t := by
            rcases List.mem_cons.mp hw with hwe | hwe
            · subst hwe
              rw [hs] at hw2
              injection hw2 with hw2
              exact absurd hw2 (ne_of_lt hvlt)
            · exact hwe
          have hstep2 : (selectStep category acc e).2 < s := by
            simp only [selectStep, hs]
            split_ifs with hcmp
            · exact hvlt
            · exact hlt
          exact ih _ hmaxt (Or.inl ⟨⟨w, hwt, hw1, hw2⟩, hstep2⟩)
        · have hstep : selectStep category acc e = (some m, s) := by
            simp only [selectStep, hs]
            rw [hvs, if_pos hlt, hem]
          rw [hstep]
          exact ih _ hmaxt (Or.inr rfl)
      · have hns : ¬ acc.2 < v := by
          rw [heq]
          show ¬ s < v
          rcases hv with hvlt | ⟨_, hvs⟩
          · exact lt_asymm hvlt
          · rw [hvs]; exact lt_irrefl s
        rw [show selectStep category acc e = acc from by
          simp only [selectStep, hs]
          rw [if_neg hns]]
        exact ih _ hmaxt (Or.inr heq)

/-- C6 (amended): when one model's combined score strictly dominates every
other entry's score for the category, the selection is that model,
independently of the iteration (completion) order: the result is determined
by the score data alone.  The deterministic tie-break claimed by the spec
does not exist — on ties the first *completed* entry wins
(see the counterexample). -/
theorem c6_unique_max_selection (results : List (String × ModelEntry))
    (category m : String) (s : ℚ)
    (hmem : ∃ e ∈ results, e.1 = m ∧ entryScore category e = some s)
    (hpos : 0 < s)
    (hmax : ∀ e ∈ results, ∀ t, entryScore category e = some t
      → t < s ∨ (e.1 = m ∧ t = s)) :
    selectModelForCategory results category = some m := by
  unfold selectModelForCategory
  rw [foldl_selectStep_unique_max category m s results (none, 0) hmax (Or.inl ⟨hmem, hpos⟩)]

/-- Report for the C6 witness: avg quality 0.9, avg latency 2.0s,
combined score 0.7 × 0.9 + 0.3 × (1/2) = 0.78. -/
def reportQualA : ModelResults :=
  { model_id := "model-a", total_tests := 1, passed_tests := 1, failed_tests := 0,
    average_latency := 2, total_tokens := 10,
    test_details := [.scored "customer_service" 2 10 (9/10) true], success_rate := some 1 }

/-- Report for the C6 witness: avg quality 0.6, avg latency 0.5s,
combined score 0.7 × 0.6 + 0.3 × 2 = 1.02. -/
def reportQualB : ModelResults :=
  { model_id := "model-b", total_tests := 1, passed_tests := 0, failed_tests := 1,
    average_latency := 1/2, total_tokens := 10,
    test_details := [.scored "customer_service" (1/2) 10 (3/5) false], success_rate := some 0 }

theorem c6_unique_max_selection_witness :
    selectModelForCategory
        [("model-a", .report reportQualA), ("model-b", .report reportQualB)] "customer_service"
      = some "model-b" := by
  apply c6_unique_max_selection _ "customer_service" "model-b" (51/50)
  · exact ⟨("model-b", .report reportQualB), by simp, rfl, by with_unfolding_all rfl⟩
  · norm_num
  · intro e he t ht
    rcases List.mem_cons.mp he with h1 | h1
    · rw [h1] at ht
      rw [show entryScore "customer_service" ("model-a", ModelEntry.report reportQualA)
          = some (39/50) from by with_unfolding_all rfl] at ht
      injection ht with ht
      left
      rw [← ht]
      norm_num
    · rcases List.mem_cons.mp h1 with h2 | h2
      · rw [h2] at ht
        rw [show entryScore "customer_service" ("model-b", ModelEntry.report reportQualB)
            = some (51/50) from by with_unfolding_all rfl] at ht
        injection ht with ht
        right
        exact ⟨by rw [h2], ht.symm⟩
      · exact absurd h2 (List.not_mem_nil e)

lemma foldl_selectStep_all_none (category : String) :
    ∀ (l : List (String × ModelEntry)) (acc : Option String × ℚ),
      (∀ e ∈ l, entryScore category e = none) →
      l.foldl (selectStep category) acc = acc
  | [], _, _ => rfl
  | e :: t, acc, h => by
      rw [List.foldl_cons,
        show selectStep category acc e = acc from by
          simp [selectStep, h e (List.mem_cons_self e t)]]
      exact foldl_selectStep_all_none category t acc
        (fun x hx => h x (List.mem_cons_of_mem e hx))

/-- C7 (counterexample): with a results dict in which no model produced a
scored case for "customer_service", the recommendation mapping still
*contains* the key "customer_service" — mapped to None — rather than
omitting it as the claim states. -/
theorem c7_counterexample :
    (best_models [("anthropic.claude-v2", .failedTask "AccessDeniedException")]).lookup
        "customer_service" = some none
    ∧ ¬ (best_models [("anthropic.claude-v2", .failedTask "AccessDeniedException")]).lookup
        "customer_service" = none := by
  constructor
  · with_unfolding_all rfl
  · intro hnone
    rw [show (best_models [("anthropic.claude-v2", .failedTask "AccessDeniedException")]).lookup
        "customer_service" = some none from by with_unfolding_all rfl] at hnone
    exact Option.noConfusion hnone

/-- C7 (amended): when no results entry yields a combined score for
"customer_service" (no model produced any scored case there), the selection
loop completes without error and the mapping contains the category key with
value None — present with a null value, not absent. -/
theorem c7_empty_category_present_with_none (results : List (String × ModelEntry))
    (h : ∀ e ∈ results, entryScore "customer_service" e = none) :
    best_models results = [("customer_service", none)] := by
  simp only [best_models, List.map_cons, List.map_nil, selectModelForCategory]
  rw [foldl_selectStep_all_none "customer_service" results (none, 0) h]

theorem c7_empty_category_present_with_none_witness :
    best_models [("amazon.titan-text-express-v1", .failedTask "timeout")]
      = [("customer_service", none)] :=
  c7_empty_category_present_with_none
    [("amazon.titan-text-express-v1", .failedTask "timeout")]
    (by intro e he
        rcases List.mem_cons.mp he with h1 | h1
        · rw [h1]; rfl
        · exact absurd h1 (List.not_mem_nil e))
